import Mathlib

/-!
LS8 emulator verification: a shallow embedding of the CPU model in
`src/cpu.py` and the instruction implementations in `src/opcodes.py`.

Machine integers are modelled as `Nat` (registers, memory cells, program
counter) masked with `% MAX_MEM` wherever the Python code masks with
`& (MAX_MEM - 1)`; ALU results that can go negative in Python (SUB, DEC,
NOT) are computed over `Int` and masked with `Int.emod`, which agrees with
Python's `& 255` on negative numbers.

Python exceptions are modelled with `Except (Err × CPUState) CPUState`:
an error carries the state of the CPU object at the moment the exception
was raised (Python assertions raise before mutating the attribute being
set, so a setter failure carries the unchanged state).
-/

namespace LS8

/-- Machine word width in bits (`opcodes.py`: `BITS`). -/
def BITS : Nat := 8

/-- Number of registers (`opcodes.py`: `REGISTERS`). -/
def REGISTERS : Nat := 8

/-- Opcode byte of IRET (`opcodes.py`: `IRET_OPCODE`). -/
def IRET_OPCODE : Nat := 0b00010011

/-- Bit that classifies an opcode as an ALU operation (`opcodes.py`: `ALU_MASK`). -/
def ALU_MASK : Nat := 0b00100000

/-- Memory size (`cpu.py`: `MAX_MEM = 1 << BITS`). -/
def MAX_MEM : Nat := 1 <<< BITS

/-- Register index of the interrupt mask (`cpu.py`: `IM_REG`). -/
def IM_REG : Nat := REGISTERS - 3

/-- Register index of the interrupt state (`cpu.py`: `IS_REG`). -/
def IS_REG : Nat := REGISTERS - 2

/-- Register index of the stack pointer (`cpu.py`: `SP_REG`). -/
def SP_REG : Nat := REGISTERS - 1

/-- Number of interrupt lines (`cpu.py`: `INTERRUPTS = BITS`). -/
def INTERRUPTS : Nat := BITS

/-- Reserved bytes below the vector table (`cpu.py`: `RESERVED`). -/
def RESERVED : Nat := 3

/-- Top of the addressable stack (`cpu.py`: `STACK_BASE`). -/
def STACK_BASE : Nat := MAX_MEM - INTERRUPTS - RESERVED - 1

/-- Keyboard buffer address (`cpu.py`: `KEY_BUFFER = STACK_BASE`). -/
def KEY_BUFFER : Nat := STACK_BASE

/-- Null-interrupt sentinel address (`cpu.py`: `NULL_INTERRUPT`). -/
def NULL_INTERRUPT : Nat := MAX_MEM - INTERRUPTS - 1

/-- ALU command names (`opcodes.py`: the string values of the `ALU` dict). -/
inductive AluCmd where
  | ADD | AND | CMP | DEC | DIV | INC | MOD | MUL | NOT | OR | SHL | SHR | SUB | XOR
  deriving DecidableEq, Repr

/-- Printable name of an ALU command (for the `ALU ERROR` diagnostic). -/
def AluCmd.name : AluCmd → String
  | .ADD => "ADD" | .AND => "AND" | .CMP => "CMP" | .DEC => "DEC"
  | .DIV => "DIV" | .INC => "INC" | .MOD => "MOD" | .MUL => "MUL"
  | .NOT => "NOT" | .OR => "OR" | .SHL => "SHL" | .SHR => "SHR"
  | .SUB => "SUB" | .XOR => "XOR"

/-- ALU opcode byte to command map (`opcodes.py`: `ALU`). -/
def ALU : Nat → Option AluCmd
  | 0b10100000 => some .ADD
  | 0b10101000 => some .AND
  | 0b10100111 => some .CMP
  | 0b01100110 => some .DEC
  | 0b10100011 => some .DIV
  | 0b01100101 => some .INC
  | 0b10100100 => some .MOD
  | 0b10100010 => some .MUL
  | 0b01101001 => some .NOT
  | 0b10101010 => some .OR
  | 0b10101100 => some .SHL
  | 0b10101101 => some .SHR
  | 0b10100001 => some .SUB
  | 0b10101011 => some .XOR
  | _ => none

/-- Outcome of evaluating one of the `ALU_OP` lambdas on Python ints:
a result, a `ZeroDivisionError`, or any other exception (`TypeError` from a
missing second operand). -/
inductive AluResult where
  | ok (r : Int)
  | zeroDiv
  | invalid
  deriving DecidableEq, Repr

/-- ALU command to operation map (`opcodes.py`: `ALU_OP`).  Register inputs
are natural numbers below `MAX_MEM`; results are Python ints (`Int`), since
SUB, DEC and NOT can go negative.  `x // y` and `x % y` on nonnegative ints
are `Nat` floor division and mod. -/
def ALU_OP (op : AluCmd) (x : Nat) (y : Option Nat) : AluResult :=
  match op, y with
  | .ADD, some y => .ok ((x : Int) + (y : Int))
  | .AND, some y => .ok ((x &&& y : Nat) : Int)
  | .CMP, some y => .ok (if x = y then 1 else if x > y then 2 else 4)
  | .DEC, _ => .ok ((x : Int) - 1)
  | .DIV, some y => if y = 0 then .zeroDiv else .ok ((x / y : Nat) : Int)
  | .INC, _ => .ok ((x : Int) + 1)
  | .MOD, some y => if y = 0 then .zeroDiv else .ok ((x % y : Nat) : Int)
  | .MUL, some y => .ok ((x : Int) * (y : Int))
  | .NOT, _ => .ok (-(x : Int) - 1)
  | .OR, some y => .ok ((x ||| y : Nat) : Int)
  | .SHL, some y => .ok ((x <<< y : Nat) : Int)
  | .SHR, some y => .ok ((x >>> y : Nat) : Int)
  | .SUB, some y => .ok ((x : Int) - (y : Int))
  | .XOR, some y => .ok ((x ^^^ y : Nat) : Int)
  | _, none => .invalid

/-- Kinds of Python exception raised by the emulator. -/
inductive Err where
  | assertion (msg : String)
  | attributeError (msg : String)
  | typeError (msg : String)
  | systemError (msg : String)
  deriving DecidableEq, Repr

/-- The CPU object's state: every attribute of the Python `CPU` instance that
the emulator reads or writes.  `running` is the `_running` attribute read by
the run loop; `running_dunder` is the distinct `__running__` attribute that
`CPU.alu` assigns on divide-by-zero (absent until first assigned, hence
`Option`); `old_IM` is the `_old_IM` attribute created by `check_interrupts`
(absent before the first interrupt dispatch).  `output` collects everything
printed, one entry per `print` call. -/
structure CPUState where
  reg : Nat → Nat
  program_counter : Nat
  instruction_register : Nat
  memory_address_register : Nat
  memory_data_register : Nat
  flags : Nat
  operand_a : Option Nat
  operand_b : Option Nat
  ram : Nat → Nat
  running : Bool
  running_dunder : Option Bool
  old_IM : Option Nat
  output : List String

/-- Point update of a function-represented store (a Python list assignment). -/
def upd (f : Nat → Nat) (i v : Nat) : Nat → Nat :=
  fun j => if j = i then v else f j

/-- Stack pointer: `reg[SP_REG]`. -/
def CPUState.SP (s : CPUState) : Nat := s.reg SP_REG

/-- Interrupt mask: `reg[IM_REG]`. -/
def CPUState.IM (s : CPUState) : Nat := s.reg IM_REG

/-- Interrupt state: `reg[IS_REG]`. -/
def CPUState.IS (s : CPUState) : Nat := s.reg IS_REG

/-- Result type of a fallible CPU mutation: either the new state or the
raised exception together with the state at the moment of the raise. -/
abbrev Res := Except (Err × CPUState) CPUState

/-- Mask a Python int to the word width: `value & (MAX_MEM - 1)`. -/
def maskInt (v : Int) : Nat := (v % (MAX_MEM : Int)).toNat

/-- `IM` setter: masks and writes `reg[IM_REG]`. -/
def setIM (s : CPUState) (value : Nat) : CPUState :=
  { s with reg := upd s.reg IM_REG (value % MAX_MEM) }

/-- `IS` setter: masks and writes `reg[IS_REG]`. -/
def setIS (s : CPUState) (value : Nat) : CPUState :=
  { s with reg := upd s.reg IS_REG (value % MAX_MEM) }

/-- `SP` setter (`cpu.py` lines 113-120): masks, checks the range
`0 <= value <= STACK_BASE`, and checks that the currently decoding
instruction (`PC + (IR >> 6)` operand span) lies strictly below the new
stack pointer unless that address equals `NULL_INTERRUPT`. -/
def setSP (s : CPUState) (v : Int) : Res :=
  let value := maskInt v
  if value ≤ STACK_BASE then
    if s.program_counter + (s.instruction_register >>> 6) < value ∨
        s.program_counter + (s.instruction_register >>> 6) = NULL_INTERRUPT then
      .ok { s with reg := upd s.reg SP_REG value }
    else .error (.assertion "stack cannot overlap executing code", s)
  else .error (.assertion "stack pointer out of range", s)

/-- `PC` setter (`cpu.py` lines 138-142): masks and checks
`0 <= value < SP` or `value == NULL_INTERRUPT`. -/
def setPC (s : CPUState) (v : Int) : Res :=
  let value := maskInt v
  if value < s.SP ∨ value = NULL_INTERRUPT then
    .ok { s with program_counter := value }
  else .error (.assertion "invalid program counter", s)

/-- `MAR` setter: masks only. -/
def setMAR (s : CPUState) (value : Nat) : CPUState :=
  { s with memory_address_register := value % MAX_MEM }

/-- `MDR` setter: masks only. -/
def setMDR (s : CPUState) (value : Nat) : CPUState :=
  { s with memory_data_register := value % MAX_MEM }

/-- `FL` setter: masks only. -/
def setFL (s : CPUState) (v : Int) : CPUState :=
  { s with flags := maskInt v }

/-- `OP_A` setter: `None` is stored as-is; otherwise masks and requires a
valid register index. -/
def setOPA (s : CPUState) (v : Option Nat) : Res :=
  match v with
  | none => .ok { s with operand_a := none }
  | some value =>
    let value := value % MAX_MEM
    if value < REGISTERS then .ok { s with operand_a := some value }
    else .error (.assertion "operand_a out of range", s)

/-- `OP_B` setter: `None` is stored as-is; otherwise masks and requires a
register index when the current IR is ALU-classified (any masked value is
below `MAX_MEM`, so non-ALU instructions accept every byte). -/
def setOPB (s : CPUState) (v : Option Nat) : Res :=
  match v with
  | none => .ok { s with operand_b := none }
  | some value =>
    let value := value % MAX_MEM
    if value < (if s.instruction_register &&& ALU_MASK ≠ 0 then REGISTERS else MAX_MEM) then
      .ok { s with operand_b := some value }
    else .error (.assertion "operand_b out of range for ALU operation", s)

/-- `CPU.ram_read`: latches the address into MAR, the cell into MDR, and
returns the (masked) data together with the mutated state. -/
def ram_read (s : CPUState) (address : Nat) : CPUState × Nat :=
  let s1 := setMAR s address
  let s2 := setMDR s1 (s1.ram s1.memory_address_register)
  (s2, s2.memory_data_register)

/-- `CPU.ram_write`: latches address and data, then stores MDR at MAR. -/
def ram_write (s : CPUState) (address value : Nat) : CPUState :=
  let s1 := setMDR (setMAR s address) value
  { s1 with ram := upd s1.ram s1.memory_address_register s1.memory_data_register }

/-- `CPU.alu` (`cpu.py` lines 334-350).  Reads `reg[reg_a]` (and
`reg[reg_b]` when present), applies the `ALU_OP` table entry, and either
writes FL (CMP), writes the masked result back to `reg[reg_a]`, prints the
`ALU ERROR` diagnostic and assigns the (misspelled) `__running__` attribute
on `ZeroDivisionError`, or raises `SystemError` on any other failure
(bad register index or missing operand). -/
def alu (s : CPUState) (op : AluCmd) (reg_a reg_b : Option Nat) : Res :=
  let unsupported : Res :=
    .error (.systemError ("Unsupported ALU operation: " ++ op.name ++ " at " ++
      toString s.program_counter), s)
  match reg_a with
  | none => unsupported
  | some a =>
    if a < REGISTERS then
      let x := s.reg a
      let run2 : Option Nat → Res := fun y =>
        match ALU_OP op x y with
        | .ok result =>
          if op = .CMP then .ok (setFL s result)
          else .ok { s with reg := upd s.reg a (maskInt result) }
        | .zeroDiv =>
          .ok { s with
                output := s.output ++
                  ["ALU ERROR: " ++ op.name ++ " by 0 at " ++ toString s.program_counter],
                running_dunder := some false }
        | .invalid => unsupported
      match reg_b with
      | some b => if b < REGISTERS then run2 (some (s.reg b)) else unsupported
      | none => run2 none
    else unsupported

/-- Read `OP_A` as a value; `None` raises a `TypeError` when used as a
register index. -/
def getOpA (s : CPUState) : Except (Err × CPUState) Nat :=
  match s.operand_a with
  | some v => .ok v
  | none => .error (.typeError "operand A is None", s)

/-- Read `OP_B` as a value; `None` raises a `TypeError` when used as a
number. -/
def getOpB (s : CPUState) : Except (Err × CPUState) Nat :=
  match s.operand_b with
  | some v => .ok v
  | none => .error (.typeError "operand B is None", s)

/-- `CALL` (`opcodes.py`): push `PC + 2`, jump to `reg[OP_A]`. -/
def CALL (cpu : CPUState) : Res := do
  let cpu ← setSP cpu ((cpu.SP : Int) - 1)
  let cpu := ram_write cpu cpu.SP (cpu.program_counter + 2)
  let a ← getOpA cpu
  setPC cpu ((cpu.reg a : Int))

/-- `HLT` (`opcodes.py`): clear the `_running` flag. -/
def HLT (cpu : CPUState) : Res :=
  .ok { cpu with running := false }

/-- `INT` (`opcodes.py`): raise interrupt number `reg[OP_A]` (must be below
`BITS`), then advance PC by 2. -/
def INT (cpu : CPUState) : Res := do
  let a ← getOpA cpu
  if cpu.reg a < BITS then
    let cpu := setIS cpu (cpu.IS ||| (1 <<< cpu.reg a))
    setPC cpu ((cpu.program_counter : Int) + 2)
  else .error (.assertion "invalid interrupt", cpu)

/-- Pop loop of `IRET`: `for i in range(6, -1, -1)` pops `reg[i]` from the
stack, counting the index down from `n - 1` to 0. -/
def popRegs (s : CPUState) : Nat → Res
  | 0 => .ok s
  | n + 1 => do
    let (s1, v) := ram_read s s.SP
    let s2 : CPUState := { s1 with reg := upd s1.reg n v }
    let s3 ← setSP s2 ((s2.SP : Int) + 1)
    popRegs s3 n

/-- Flag-restoring lines of `IRET`: `cpu.FL = cpu.ram_read(cpu.SP)` then
`cpu.SP += 1`. -/
def IRET_popFL (cpu : CPUState) : Res :=
  let (cpu1, v) := ram_read cpu cpu.SP
  let cpu2 := setFL cpu1 (v : Int)
  setSP cpu2 ((cpu2.SP : Int) + 1)

/-- Program-counter-restoring lines of `IRET`: `cpu.PC = cpu.ram_read(cpu.SP)`
then `cpu.SP += 1`. -/
def IRET_popPC (cpu : CPUState) : Res :=
  let (cpu1, v2) := ram_read cpu cpu.SP
  Except.bind (setPC cpu1 (v2 : Int)) (fun c => setSP c ((c.SP : Int) + 1))

/-- Mask-restoring line of `IRET`: `cpu.IM = cpu._old_IM`, an
`AttributeError` when no interrupt has ever been dispatched. -/
def IRET_restoreIM (cpu : CPUState) : Res :=
  match cpu.old_IM with
  | some m => .ok (setIM cpu m)
  | none => .error (.attributeError "CPU object has no attribute _old_IM", cpu)

/-- `IRET` (`opcodes.py`): pop R6..R0, then FL, then PC, then restore the
interrupt mask from the `_old_IM` attribute (an `AttributeError` if no
interrupt was ever dispatched). -/
def IRET (cpu : CPUState) : Res :=
  Except.bind (popRegs cpu (REGISTERS - 1)) (fun c1 =>
    Except.bind (IRET_popFL c1) (fun c2 =>
      Except.bind (IRET_popPC c2) IRET_restoreIM))

/-- `JEQ` (`opcodes.py`): jump to `reg[OP_A]` when the E flag is set, else
advance PC by 2. -/
def JEQ (cpu : CPUState) : Res := do
  if cpu.flags &&& 0b1 ≠ 0 then
    let a ← getOpA cpu
    setPC cpu ((cpu.reg a : Int))
  else setPC cpu ((cpu.program_counter : Int) + 2)

/-- `JGE` (`opcodes.py`): jump when G or E is set (`FL & 0b11`). -/
def JGE (cpu : CPUState) : Res := do
  if cpu.flags &&& 0b11 ≠ 0 then
    let a ← getOpA cpu
    setPC cpu ((cpu.reg a : Int))
  else setPC cpu ((cpu.program_counter : Int) + 2)

/-- `JGT` (`opcodes.py`): jump when G is set (`FL & 0b10`). -/
def JGT (cpu : CPUState) : Res := do
  if cpu.flags &&& 0b10 ≠ 0 then
    let a ← getOpA cpu
    setPC cpu ((cpu.reg a : Int))
  else setPC cpu ((cpu.program_counter : Int) + 2)

/-- `JLE` (`opcodes.py`): jump when L or E is set (`FL & 0b101`). -/
def JLE (cpu : CPUState) : Res := do
  if cpu.flags &&& 0b101 ≠ 0 then
    let a ← getOpA cpu
    setPC cpu ((cpu.reg a : Int))
  else setPC cpu ((cpu.program_counter : Int) + 2)

/-- `JLT` (`opcodes.py`): jump when L is set (`FL & 0b100`). -/
def JLT (cpu : CPUState) : Res := do
  if cpu.flags &&& 0b100 ≠ 0 then
    let a ← getOpA cpu
    setPC cpu ((cpu.reg a : Int))
  else setPC cpu ((cpu.program_counter : Int) + 2)

/-- `JMP` (`opcodes.py`): jump to `reg[OP_A]`. -/
def JMP (cpu : CPUState) : Res := do
  let a ← getOpA cpu
  setPC cpu ((cpu.reg a : Int))

/-- `JNE` (`opcodes.py`): jump when the E flag is clear. -/
def JNE (cpu : CPUState) : Res := do
  if cpu.flags &&& 0b1 = 0 then
    let a ← getOpA cpu
    setPC cpu ((cpu.reg a : Int))
  else setPC cpu ((cpu.program_counter : Int) + 2)

/-- `LD` (`opcodes.py`): `reg[OP_A] = ram[reg[OP_B]]`; OP_B must be a valid
register index. -/
def LD (cpu : CPUState) : Res := do
  let b ← getOpB cpu
  if b < REGISTERS then
    let a ← getOpA cpu
    let (cpu, v) := ram_read cpu (cpu.reg b)
    .ok { cpu with reg := upd cpu.reg a v }
  else .error (.assertion "invalid register", cpu)

/-- `LDI` (`opcodes.py`): `reg[OP_A] = OP_B` (no masking; the operand was
masked by the decoder). -/
def LDI (cpu : CPUState) : Res := do
  let a ← getOpA cpu
  let b ← getOpB cpu
  .ok { cpu with reg := upd cpu.reg a b }

/-- `NOP` (`opcodes.py`): no effect. -/
def NOP (cpu : CPUState) : Res := .ok cpu

/-- `POP` (`opcodes.py`): `reg[OP_A] = ram[SP]; SP += 1`. -/
def POP (cpu : CPUState) : Res := do
  let a ← getOpA cpu
  let (cpu, v) := ram_read cpu cpu.SP
  let cpu : CPUState := { cpu with reg := upd cpu.reg a v }
  setSP cpu ((cpu.SP : Int) + 1)

/-- `PRA` (`opcodes.py`): print the character with code `reg[OP_A]`. -/
def PRA (cpu : CPUState) : Res := do
  let a ← getOpA cpu
  .ok { cpu with output := cpu.output ++ [String.singleton (Char.ofNat (cpu.reg a))] }

/-- `PRN` (`opcodes.py`): print the decimal value of `reg[OP_A]`. -/
def PRN (cpu : CPUState) : Res := do
  let a ← getOpA cpu
  .ok { cpu with output := cpu.output ++ [toString (cpu.reg a)] }

/-- `PUSH` (`opcodes.py`): `SP -= 1; ram[SP] = reg[OP_A]`. -/
def PUSH (cpu : CPUState) : Res := do
  let cpu ← setSP cpu ((cpu.SP : Int) - 1)
  let a ← getOpA cpu
  .ok (ram_write cpu cpu.SP (cpu.reg a))

/-- `RET` (`opcodes.py`): `PC = ram[SP]; SP += 1`. -/
def RET (cpu : CPUState) : Res := do
  let (cpu, v) := ram_read cpu cpu.SP
  let cpu ← setPC cpu (v : Int)
  setSP cpu ((cpu.SP : Int) + 1)

/-- `ST` (`opcodes.py`): `ram[reg[OP_A]] = reg[OP_B]`; OP_B must be a valid
register index. -/
def ST (cpu : CPUState) : Res := do
  let b ← getOpB cpu
  if b < REGISTERS then
    let a ← getOpA cpu
    .ok (ram_write cpu (cpu.reg a) (cpu.reg b))
  else .error (.assertion "invalid register", cpu)

/-- `ADDI` (`opcodes.py`): `reg[OP_A] += OP_B; reg[OP_A] &= 255`. -/
def ADDI (cpu : CPUState) : Res := do
  let a ← getOpA cpu
  let b ← getOpB cpu
  .ok { cpu with reg := upd cpu.reg a ((cpu.reg a + b) % ((1 <<< BITS) - 1 + 1)) }

/-- Non-ALU opcode dispatch table (`opcodes.py`: the `OPCODES` dict filled by
the `@opcode` decorators). -/
def OPCODES : Nat → Option (CPUState → Res)
  | 0b01010000 => some CALL
  | 0b00000001 => some HLT
  | 0b01010010 => some INT
  | 0b00010011 => some IRET
  | 0b01010101 => some JEQ
  | 0b01011010 => some JGE
  | 0b01010111 => some JGT
  | 0b01011001 => some JLE
  | 0b01011000 => some JLT
  | 0b01010100 => some JMP
  | 0b01010110 => some JNE
  | 0b10000011 => some LD
  | 0b10000010 => some LDI
  | 0b00000000 => some NOP
  | 0b01000110 => some POP
  | 0b01001000 => some PRA
  | 0b01000111 => some PRN
  | 0b01000101 => some PUSH
  | 0b00010001 => some RET
  | 0b10000100 => some ST
  | 0b10000000 => some ADDI
  | _ => none

/-- `IR` setter (`cpu.py` lines 159-176): masks, rejects bytes outside both
opcode tables, stores the opcode, then decodes the operand arity from bits
6 and 7 and fetches the operand byte(s), failing if they would lie at or
past the stack pointer. -/
def setIR (s : CPUState) (v : Nat) : Res := do
  let value := v % MAX_MEM
  if (OPCODES value).isSome || (ALU value).isSome then
    let s : CPUState := { s with instruction_register := value }
    if value &&& (1 <<< (BITS - 2)) ≠ 0 then
      if s.program_counter + 1 < s.SP then do
        let (s, opa) := ram_read s (s.program_counter + 1)
        let s ← setOPA s (some opa)
        setOPB s none
      else .error (.assertion "CPU.IR: instruction operands in stack", s)
    else if value &&& (1 <<< (BITS - 1)) ≠ 0 then
      if s.program_counter + 2 < s.SP then do
        let (s, opa) := ram_read s (s.program_counter + 1)
        let (s, opb) := ram_read s (s.program_counter + 2)
        let s ← setOPA s (some opa)
        setOPB s (some opb)
      else .error (.assertion "CPU.IR: instruction operands in stack", s)
    else do
      let s ← setOPA s none
      setOPB s none
  else .error (.assertion "CPU.IR: invalid opcode", s)

/-- Push loop of `check_interrupts`: `for i in range(REGISTERS - 1)` pushes
`reg[i]`, counting `i` up while `n` counts down. -/
def pushRegs (s : CPUState) (i : Nat) : Nat → Res
  | 0 => .ok s
  | n + 1 => do
    let s1 ← setSP s ((s.SP : Int) - 1)
    let s2 := ram_write s1 s1.SP (s1.reg i)
    pushRegs s2 (i + 1) n

/-- Interrupt dispatch body of `check_interrupts` (`cpu.py` lines 420-432):
save the mask, disable interrupts, clear the pending bit, push PC, FL and
R0..R6, and jump to the handler address from the vector table. -/
def dispatchInterrupt (s : CPUState) (interrupt : Nat) : Res := do
  let bit := 1 <<< interrupt
  let s : CPUState := { s with old_IM := some s.IM }
  let s := setIM s 0
  let s := setIS s (s.IS &&& (255 ^^^ bit))
  let s ← setSP s ((s.SP : Int) - 1)
  let s := ram_write s s.SP s.program_counter
  let s ← setSP s ((s.SP : Int) - 1)
  let s := ram_write s s.SP s.flags
  let s ← pushRegs s 0 (REGISTERS - 1)
  setPC s ((s.ram (MAX_MEM - INTERRUPTS + interrupt) : Int))

/-- `CPU.check_interrupts` (`cpu.py` lines 414-432): service the
lowest-numbered line that is both masked-in and pending, if any. -/
def check_interrupts (s : CPUState) : Res :=
  let maskedInterrupts := s.IM &&& s.IS
  match (List.range 8).find? (fun i => maskedInterrupts &&& (1 <<< i) != 0) with
  | none => .ok s
  | some interrupt => dispatchInterrupt s interrupt

/-- One iteration of the `CPU.run` while-loop body (`cpu.py` lines 399-410),
with the timer and keyboard collaborators quiescent (no device raises an
interrupt): check interrupts, fetch and decode the byte at PC, execute it
through the ALU or the dispatch table, and advance PC unless bit 4 of the
opcode says the instruction moved PC itself. -/
def step (s : CPUState) : Res := do
  let s ← check_interrupts s
  let (s, v) := ram_read s s.program_counter
  let s ← setIR s v
  let s ←
    if s.instruction_register &&& ALU_MASK ≠ 0 then
      match ALU s.instruction_register with
      | some op => alu s op s.operand_a s.operand_b
      | none => .error (.systemError "KeyError", s)
    else
      match OPCODES s.instruction_register with
      | some f => f s
      | none => .error (.systemError "KeyError", s)
  if s.instruction_register &&& 0b10000 = 0 then
    setPC s ((s.program_counter : Int) + (1 + (s.instruction_register >>> 6) : Nat))
  else .ok s

/-- Fuel-indexed unfolding of the `while self._running` loop. -/
def runLoop : Nat → CPUState → Res
  | 0, s => .ok s
  | n + 1, s =>
    if s.running then
      match step s with
      | .ok s2 => runLoop n s2
      | .error e => .error e
    else .ok s

/-- `CPU.run` with quiescent devices: set `_running = True` and iterate the
loop body at most `fuel` times. -/
def run (s : CPUState) (fuel : Nat) : Res :=
  runLoop fuel { s with running := true }

/-- `CPU.__init__` (`cpu.py` lines 39-55): zero the registers, RAM, PC and
FL, point SP at `STACK_BASE`, seed the null-interrupt handler byte with the
IRET opcode and every interrupt vector with the sentinel address.  The
`_old_IM` and `__running__` attributes do not exist yet, and the lazily
initialized operand latches read as 0. -/
def initState : CPUState :=
  let s : CPUState :=
    { reg := upd (fun _ => 0) SP_REG STACK_BASE
      program_counter := 0
      instruction_register := 0
      memory_address_register := 0
      memory_data_register := 0
      flags := 0
      operand_a := some 0
      operand_b := some 0
      ram := fun _ => 0
      running := false
      running_dunder := none
      old_IM := none
      output := [] }
  let s := ram_write s NULL_INTERRUPT IRET_OPCODE
  (List.range INTERRUPTS).foldl
    (fun s i => ram_write s (MAX_MEM - INTERRUPTS + i) NULL_INTERRUPT) s

/-- Byte-writing loop of `CPU.load`: each parsed instruction byte must land
strictly below `STACK_BASE`. -/
def loadProgram : CPUState → Nat → List Nat → Res
  | s, _, [] => .ok s
  | s, address, b :: rest =>
    if address < STACK_BASE then
      loadProgram (ram_write s address b) (address + 1) rest
    else .error (.assertion "program too large to fit in memory", s)

/-- `CPU.load` applied to an already-parsed program image: reset the CPU and
write the bytes from address 0 (the regex text scan of the image file is
out of scope). -/
def load (program : List Nat) : Res :=
  loadProgram initState 0 program

/-- Success test on a CPU action result. -/
def exOk : Res → Bool
  | .ok _ => true
  | .error _ => false

/-- Error projection of a CPU action result. -/
def resErr : Res → Option Err
  | .ok _ => none
  | .error (e, _) => some e

/-- State projection of a successful CPU action result. -/
def resState : Res → Option CPUState
  | .ok s => some s
  | .error _ => none

/-- Register `j` of the state of a successful result. -/
def stReg (r : Res) (j : Nat) : Option Nat := (resState r).map fun f => f.reg j

/-- Program counter of the state of a successful result. -/
def stPC (r : Res) : Option Nat := (resState r).map fun f => f.program_counter

/-- Flags of the state of a successful result. -/
def stFL (r : Res) : Option Nat := (resState r).map fun f => f.flags

/-- Stack pointer of the state of a successful result. -/
def stSP (r : Res) : Option Nat := (resState r).map fun f => f.reg SP_REG

/-- Printed output of the state of a successful result. -/
def stOutput (r : Res) : Option (List String) := (resState r).map fun f => f.output

/-- The `_running` flag of the state of a successful result. -/
def stRunning (r : Res) : Option Bool := (resState r).map fun f => f.running

/-- The `__running__` attribute of the state of a successful result. -/
def stRunningDunder (r : Res) : Option (Option Bool) :=
  (resState r).map fun f => f.running_dunder

/-- Program image `DIV R0,R1` (followed by memory that is all zero, i.e.
NOP).  At reset R1 = 0, so the DIV divides by zero at PC 0. -/
def div_program : List Nat := [0b10100011, 0, 1]

/-- Result of loading `div_program` and running the loop for two cycles. -/
def c1res : Res := Except.bind (load div_program) (fun s => run s 2)

/-- Program image `LDI R0,8; LDI R1,9; ADD R0,R1; PRN R0; HLT`. -/
def example_program : List Nat :=
  [0b10000010, 0, 8,
   0b10000010, 1, 9,
   0b10100000, 0, 1,
   0b01000111, 0,
   0b00000001]

/-- Result of loading `example_program` and running the loop to completion
(five instructions, ten cycles of fuel). -/
def c4res : Res := Except.bind (load example_program) (fun s => run s 10)

/-- CPU state whose PC is 245 while the current IR is the two-operand ADD
opcode, so that `PC + operand_count = 247 = NULL_INTERRUPT` although PC
itself is not the sentinel. -/
def c3state : CPUState :=
  { initState with program_counter := 245, instruction_register := 0b10100000 }

/-- Fresh CPU with the stack pointer moved down to 100 and the IRET opcode
in IR, as it is after decoding an IRET with values on the stack. -/
def c10state : CPUState :=
  { initState with reg := upd initState.reg SP_REG 100,
                   instruction_register := IRET_OPCODE }

/-- CPU with R2 = 77, SP lowered to 200, `ram[200] = 123` and operand A
decoded as register 2. -/
def c5state : CPUState :=
  { initState with
      operand_a := some 2
      reg := upd (upd initState.reg 2 77) SP_REG 200
      ram := upd initState.ram 200 123 }

/-- CPU with R0 = 3, R1 = 10, SP lowered to 100, operands 0 and 1 decoded
and a saved interrupt mask of 9. -/
def c8state : CPUState :=
  { initState with
      reg := fun j => [3, 10, 0, 0, 0, 0, 0, 100].getD j 0
      operand_a := some 0
      operand_b := some 1
      old_IM := some 9 }

/-! Helper lemmas about the store update and the setters. -/

theorem upd_same (f : Nat → Nat) (i v : Nat) : upd f i v i = v := if_pos rfl

theorem upd_other (f : Nat → Nat) (i v j : Nat) (h : j ≠ i) : upd f i v j = f j :=
  if_neg h

theorem MAX_MEM_eq : MAX_MEM = 256 := rfl

theorem STACK_BASE_eq : STACK_BASE = 244 := rfl

theorem REGISTERS_eq : REGISTERS = 8 := rfl

theorem SP_REG_eq : SP_REG = 7 := rfl

theorem IM_REG_eq : IM_REG = 5 := rfl

theorem IS_REG_eq : IS_REG = 6 := rfl

theorem maskInt_ofNat (n : Nat) (h : n < MAX_MEM) : maskInt (n : Int) = n := by
  simp only [maskInt, MAX_MEM_eq] at *
  omega

theorem maskInt_sub_one (n : Nat) (h1 : 1 ≤ n) (h2 : n < MAX_MEM) :
    maskInt ((n : Int) - 1) = n - 1 := by
  simp only [maskInt, MAX_MEM_eq] at *
  omega

theorem maskInt_add_one (n : Nat) (h : n + 1 < MAX_MEM) :
    maskInt ((n : Int) + 1) = n + 1 := by
  simp only [maskInt, MAX_MEM_eq] at *
  omega

theorem setSP_ok (s : CPUState) (v : Int) (w : Nat)
    (hw : maskInt v = w) (h1 : w ≤ STACK_BASE)
    (h2 : s.program_counter + (s.instruction_register >>> 6) < w ∨
          s.program_counter + (s.instruction_register >>> 6) = NULL_INTERRUPT) :
    setSP s v = .ok { s with reg := upd s.reg SP_REG w } := by
  simp only [setSP]
  rw [hw, if_pos h1, if_pos h2]

theorem setPC_ok (s : CPUState) (v : Int) (w : Nat)
    (hw : maskInt v = w) (h : w < s.SP ∨ w = NULL_INTERRUPT) :
    setPC s v = .ok { s with program_counter := w } := by
  simp only [setPC]
  rw [hw, if_pos h]

/-! Claim C1. -/

/-- C1: refuting the halt.  Executing `DIV R0,R1` with `R1 = 0` prints the
diagnostic `ALU ERROR: DIV by 0 at 0` naming the operation and the PC, but
the Execution Loop does not halt: `CPU.alu` assigns `False` to the attribute
`__running__` — a misspelling of the `_running` flag the loop tests — so
after the faulting cycle the running flag is still `true` and the loop goes
on to execute the NOP at address 3 (final PC 4 after two cycles). -/
theorem C1_div_zero_loop_does_not_halt :
    stOutput c1res = some ["ALU ERROR: DIV by 0 at 0"] ∧
    stRunning c1res = some true ∧
    stRunningDunder c1res = some (some false) ∧
    stPC c1res = some 4 := by decide

/-! Claim C4. -/

/-- C4: the scenario program `LDI R0,8; LDI R1,9; ADD R0,R1; PRN R0; HLT`
run from the reset state with quiescent devices emits exactly the decimal
text `17`, terminates the loop cleanly (running flag false, no exception),
and leaves R0 = 17 and R1 = 9. -/
theorem C4_scenario_add_prn_hlt :
    stOutput c4res = some ["17"] ∧
    stRunning c4res = some false ∧
    stReg c4res 0 = some 17 ∧
    stReg c4res 1 = some 9 ∧
    resErr c4res = none := by decide

/-! Claim C3. -/

/-- C3 counterexample: at PC = 245 with the two-operand ADD opcode in IR,
`PC + operand_count = 247 = NULL_INTERRUPT`, so the SP setter accepts the
new value 100 — yet the claim's condition (overlap check waived exactly when
PC equals the sentinel) demands rejection here, since 247 is not below 100
and PC = 245 is not the sentinel.  The code waives the check when
`PC + operand_count` equals the sentinel, not when PC does. -/
theorem C3_counterexample :
    exOk (setSP c3state 100) = true ∧
    ¬ ((100 : Nat) ≤ STACK_BASE ∧
        (c3state.program_counter + (c3state.instruction_register >>> 6) < 100 ∨
         c3state.program_counter = NULL_INTERRUPT)) := by decide

/-- C3 (amended): the SP setter accepts value `v` exactly when the masked
value lies in `[0, STACK_BASE]` and `PC + operand_count_of(current IR)` is
strictly below it, with the overlap condition waived exactly when
`PC + operand_count` (not PC alone) equals the null-interrupt sentinel; on
acceptance the stack pointer becomes the masked value, and on rejection an
`AssertionError` propagates with the CPU state unmutated. -/
theorem C3_sp_setter_guard (s : CPUState) (v : Int) :
    (exOk (setSP s v) = true ↔
      (maskInt v ≤ STACK_BASE ∧
        (s.program_counter + (s.instruction_register >>> 6) < maskInt v ∨
         s.program_counter + (s.instruction_register >>> 6) = NULL_INTERRUPT))) ∧
    (∀ s2, setSP s v = .ok s2 → s2.reg SP_REG = maskInt v) ∧
    (∀ ep, setSP s v = .error ep → ep.2 = s) := by
  by_cases h1 : maskInt v ≤ STACK_BASE
  · by_cases h2 : s.program_counter + (s.instruction_register >>> 6) < maskInt v ∨
        s.program_counter + (s.instruction_register >>> 6) = NULL_INTERRUPT
    · refine ⟨?_, ?_, ?_⟩
      · simp only [setSP, exOk, if_pos h1, if_pos h2]
        simpa using ⟨h1, h2⟩
      · intro s2 hs2
        simp only [setSP, if_pos h1, if_pos h2, Except.ok.injEq] at hs2
        rw [← hs2]
        simp [upd]
      · intro ep hep
        simp only [setSP, if_pos h1, if_pos h2] at hep
        exact Except.noConfusion hep
    · refine ⟨?_, ?_, ?_⟩
      · simp only [setSP, exOk, if_pos h1, if_neg h2]
        simp [h2]
      · intro s2 hs2
        simp only [setSP, if_pos h1, if_neg h2] at hs2
        exact Except.noConfusion hs2
      · intro ep hep
        simp only [setSP, if_pos h1, if_neg h2, Except.error.injEq] at hep
        rw [← hep]
  · refine ⟨?_, ?_, ?_⟩
    · simp only [setSP, exOk, if_neg h1]
      simp [h1]
    · intro s2 hs2
      simp only [setSP, if_neg h1] at hs2
      exact Except.noConfusion hs2
    · intro ep hep
      simp only [setSP, if_neg h1, Except.error.injEq] at hep
      rw [← hep]

/-! Claim C7. -/

/-- C7: the PC setter rejects value `v` exactly when the masked value is at
least the current SP and differs from the null-interrupt sentinel; the
rejection is an `AssertionError` carrying the unmutated CPU state (so PC is
unchanged), and on acceptance PC becomes the masked value while the
registers are untouched. -/
theorem C7_pc_setter_guard (s : CPUState) (v : Int) :
    (exOk (setPC s v) = false ↔ (s.SP ≤ maskInt v ∧ maskInt v ≠ NULL_INTERRUPT)) ∧
    (∀ s2, setPC s v = .ok s2 →
      s2.program_counter = maskInt v ∧ s2.reg = s.reg) ∧
    (∀ ep, setPC s v = .error ep →
      ep.1 = Err.assertion "invalid program counter" ∧ ep.2 = s) := by
  by_cases h : maskInt v < s.SP ∨ maskInt v = NULL_INTERRUPT
  · refine ⟨?_, ?_, ?_⟩
    · simp only [setPC, exOk, if_pos h]
      constructor
      · intro hfalse
        exact absurd hfalse (by simp)
      · intro hcond
        omega
    · intro s2 hs2
      simp only [setPC, if_pos h, Except.ok.injEq] at hs2
      rw [← hs2]
      exact ⟨rfl, rfl⟩
    · intro ep hep
      simp only [setPC, if_pos h] at hep
      exact Except.noConfusion hep
  · refine ⟨?_, ?_, ?_⟩
    · simp only [setPC, exOk, if_neg h]
      constructor
      · intro _
        omega
      · intro _
        trivial
    · intro s2 hs2
      simp only [setPC, if_neg h] at hs2
      exact Except.noConfusion hs2
    · intro ep hep
      simp only [setPC, if_neg h, Except.error.injEq] at hep
      rw [← hep]
      exact ⟨rfl, rfl⟩

/-! Claim C9. -/

/-- C9: a DIV or MOD whose divisor register holds 0 leaves the machine state
untouched: the result record differs from the pre-fault state only in the
appended diagnostic line and the (never read) `__running__` attribute, so
the destination register, all other registers, FL, PC, SP and memory are
exactly their pre-fault values. -/
theorem C9_div_mod_zero_preserves_state (s : CPUState) (a b : Nat)
    (ha : a < REGISTERS) (hb : b < REGISTERS) (hz : s.reg b = 0) :
    alu s .DIV (some a) (some b) =
      .ok { s with
            output := s.output ++ ["ALU ERROR: DIV by 0 at " ++ toString s.program_counter],
            running_dunder := some false } ∧
    alu s .MOD (some a) (some b) =
      .ok { s with
            output := s.output ++ ["ALU ERROR: MOD by 0 at " ++ toString s.program_counter],
            running_dunder := some false } := by
  constructor <;>
  · simp only [alu, if_pos ha, if_pos hb, hz, ALU_OP, if_pos rfl]
    rfl

/-- C9 witness: the fresh CPU with destination R0 and divisor R1 = 0. -/
theorem C9_witness :
    (0 : Nat) < REGISTERS ∧ (1 : Nat) < REGISTERS ∧ initState.reg 1 = 0 ∧
    (alu initState .DIV (some 0) (some 1) =
      .ok { initState with
            output := initState.output ++
              ["ALU ERROR: DIV by 0 at " ++ toString initState.program_counter],
            running_dunder := some false } ∧
     alu initState .MOD (some 0) (some 1) =
      .ok { initState with
            output := initState.output ++
              ["ALU ERROR: MOD by 0 at " ++ toString initState.program_counter],
            running_dunder := some false }) :=
  ⟨by decide, by decide, by decide,
   C9_div_mod_zero_preserves_state initState 0 1 (by decide) (by decide) (by decide)⟩

/-! Claim C6. -/

/-- C6: CMP writes into FL exactly one of 1 (equal), 2 (a greater) or
4 (a less) — the three alternatives are mutually exclusive single-bit
values and one of them always occurs — and CMP of a register with itself
always writes 1. -/
theorem C6_cmp_single_flag (s : CPUState) (a b : Nat)
    (ha : a < REGISTERS) (hb : b < REGISTERS) :
    (stFL (alu s .CMP (some a) (some b)) = some 1 ∨
     stFL (alu s .CMP (some a) (some b)) = some 2 ∨
     stFL (alu s .CMP (some a) (some b)) = some 4) ∧
    (stFL (alu s .CMP (some a) (some b)) = some 1 ↔ s.reg a = s.reg b) ∧
    (stFL (alu s .CMP (some a) (some b)) = some 2 ↔ s.reg a > s.reg b) ∧
    (stFL (alu s .CMP (some a) (some b)) = some 4 ↔ s.reg a < s.reg b) ∧
    stFL (alu s .CMP (some a) (some a)) = some 1 := by
  have key : ∀ c : Nat, c < REGISTERS →
      stFL (alu s .CMP (some a) (some c)) =
        some (maskInt (if s.reg a = s.reg c then 1
                       else if s.reg a > s.reg c then 2 else 4)) := by
    intro c hc
    simp only [alu, if_pos ha, if_pos hc, ALU_OP]
    rfl
  rw [key b hb, key a ha]
  rcases Nat.lt_trichotomy (s.reg a) (s.reg b) with hlt | heq | hgt
  · rw [if_neg (Nat.ne_of_lt hlt), if_neg (by omega), show maskInt 4 = 4 from rfl]
    refine ⟨by right; right; rfl, ?_, ?_, ?_, ?_⟩
    · simp only [Option.some.injEq, true_iff, false_iff]
      omega
    · simp only [Option.some.injEq, true_iff, false_iff]
      omega
    · simp only [Option.some.injEq, true_iff, false_iff]
      omega
    · rw [if_pos rfl]
      rfl
  · rw [if_pos heq, show maskInt 1 = 1 from rfl]
    refine ⟨by left; rfl, ?_, ?_, ?_, ?_⟩
    · simp only [Option.some.injEq, true_iff, false_iff]
      omega
    · simp only [Option.some.injEq, true_iff, false_iff]
      omega
    · simp only [Option.some.injEq, true_iff, false_iff]
      omega
    · rw [if_pos rfl]
      rfl
  · rw [if_neg (by omega), if_pos hgt, show maskInt 2 = 2 from rfl]
    refine ⟨by right; left; rfl, ?_, ?_, ?_, ?_⟩
    · simp only [Option.some.injEq, true_iff, false_iff]
      omega
    · simp only [Option.some.injEq, true_iff, false_iff]
      omega
    · simp only [Option.some.injEq, true_iff, false_iff]
      omega
    · rw [if_pos rfl]
      rfl

/-- C6 witness: CMP on the fresh CPU with registers R0 and R1 (both 0). -/
theorem C6_witness :
    (0 : Nat) < REGISTERS ∧ (1 : Nat) < REGISTERS ∧
    ((stFL (alu initState .CMP (some 0) (some 1)) = some 1 ∨
      stFL (alu initState .CMP (some 0) (some 1)) = some 2 ∨
      stFL (alu initState .CMP (some 0) (some 1)) = some 4) ∧
     (stFL (alu initState .CMP (some 0) (some 1)) = some 1 ↔
        initState.reg 0 = initState.reg 1) ∧
     (stFL (alu initState .CMP (some 0) (some 1)) = some 2 ↔
        initState.reg 0 > initState.reg 1) ∧
     (stFL (alu initState .CMP (some 0) (some 1)) = some 4 ↔
        initState.reg 0 < initState.reg 1) ∧
     stFL (alu initState .CMP (some 0) (some 0)) = some 1) :=
  ⟨by decide, by decide, C6_cmp_single_flag initState 0 1 (by decide) (by decide)⟩

/-! Helper lemmas for the IRET pop sequence (claims C10 and C8). -/

/-- Pop loop characterization: starting with `SP + m ≤ STACK_BASE` and the
decoded instruction below the stack, `popRegs s m` succeeds, moves SP up by
`m`, fills registers `m-1 .. 0` with the masked bytes at `SP .. SP+m-1`, and
leaves every other part of the state unchanged. -/
theorem popRegs_ok (m : Nat) : ∀ s : CPUState, m ≤ REGISTERS - 1 →
    s.SP + m ≤ STACK_BASE →
    s.program_counter + (s.instruction_register >>> 6) < s.SP + 1 →
    ∃ s2, popRegs s m = .ok s2 ∧
      s2.SP = s.SP + m ∧
      (∀ j, j < m → s2.reg j = s.ram (s.SP + (m - 1 - j)) % MAX_MEM) ∧
      (∀ j, m ≤ j → j ≠ SP_REG → s2.reg j = s.reg j) ∧
      s2.program_counter = s.program_counter ∧
      s2.instruction_register = s.instruction_register ∧
      s2.ram = s.ram ∧ s2.flags = s.flags ∧ s2.old_IM = s.old_IM ∧
      s2.output = s.output ∧ s2.operand_a = s.operand_a ∧
      s2.operand_b = s.operand_b ∧
      s2.running = s.running ∧ s2.running_dunder = s.running_dunder := by
  induction m with
  | zero =>
    intro s _ _ _
    refine ⟨s, rfl, by omega, ?_, ?_, rfl, rfl, rfl, rfl, rfl, rfl, rfl, rfl, rfl, rfl⟩
    · intro j hj
      exact absurd hj (Nat.not_lt_zero j)
    · intro j _ _
      rfl
  | succ m ih =>
    intro s hm hsp hpc
    have hsb : STACK_BASE = 244 := STACK_BASE_eq
    have hmm : MAX_MEM = 256 := MAX_MEM_eq
    have hsplt : s.SP < MAX_MEM := by omega
    have hmod : s.SP % MAX_MEM = s.SP := Nat.mod_eq_of_lt hsplt
    have hm7 : m ≠ SP_REG := by rw [SP_REG_eq]; rw [REGISTERS_eq] at hm; omega
    set sA : CPUState :=
      { s with
        memory_address_register := s.SP % MAX_MEM
        memory_data_register := s.ram (s.SP % MAX_MEM) % MAX_MEM
        reg := upd s.reg m (s.ram (s.SP % MAX_MEM) % MAX_MEM) } with hsA
    have hAsp : sA.SP = s.SP := by
      rw [hsA]
      show upd s.reg m _ SP_REG = s.reg SP_REG
      exact upd_other _ _ _ _ (fun h => hm7 h.symm)
    have hstep : popRegs s (m + 1) =
        Except.bind (setSP sA ((sA.SP : Int) + 1)) (fun s3 => popRegs s3 m) := rfl
    have hwA : maskInt ((sA.SP : Int) + 1) = s.SP + 1 := by
      rw [hAsp]
      exact maskInt_add_one s.SP (by omega)
    have hok : setSP sA ((sA.SP : Int) + 1) =
        .ok { sA with reg := upd sA.reg SP_REG (s.SP + 1) } := by
      refine setSP_ok sA _ (s.SP + 1) hwA (by omega) ?_
      left
      exact hpc
    rw [hok] at hstep
    have hB : Except.bind (Except.ok { sA with reg := upd sA.reg SP_REG (s.SP + 1) })
        (fun s3 => popRegs s3 m) =
        popRegs { sA with reg := upd sA.reg SP_REG (s.SP + 1) } m := rfl
    rw [hB] at hstep
    set sB : CPUState := { sA with reg := upd sA.reg SP_REG (s.SP + 1) } with hsB
    have hBsp : sB.SP = s.SP + 1 := by
      rw [hsB]
      show upd sA.reg SP_REG _ SP_REG = _
      exact upd_same _ _ _
    obtain ⟨t, ht, htsp, hvals, hsame, hpc2, hir2, hram2, hfl2, hold2, hout2, hopa2,
        hopb2, hrun2, hrd2⟩ :=
      ih sB (by omega) (by rw [hBsp]; omega)
        (by show s.program_counter + (s.instruction_register >>> 6) < sB.SP + 1
            rw [hBsp]; omega)
    refine ⟨t, by rw [hstep]; exact ht, by rw [htsp, hBsp]; omega, ?_, ?_,
        hpc2, hir2, hram2, hfl2, hold2, hout2, hopa2, hopb2, hrun2, hrd2⟩
    · intro j hj
      rcases Nat.lt_or_ge j m with hjm | hjm
      · rw [hvals j hjm]
        have hBram : sB.ram = s.ram := rfl
        rw [hBram, hBsp]
        congr 2
        omega
      · have hjeq : j = m := by omega
        subst hjeq
        rw [hsame j (le_refl j) hm7]
        have : sB.reg j = s.ram (s.SP % MAX_MEM) % MAX_MEM := by
          rw [hsB]
          show upd sA.reg SP_REG _ j = _
          rw [upd_other _ _ _ _ hm7, hsA]
          show upd s.reg j _ j = _
          exact upd_same _ _ _
        rw [this, hmod]
        congr 2
        omega
    · intro j hj hj7
      rw [hsame j (by omega) hj7]
      have : sB.reg j = s.reg j := by
        rw [hsB]
        show upd sA.reg SP_REG _ j = _
        rw [upd_other _ _ _ _ hj7, hsA]
        show upd s.reg m _ j = _
        exact upd_other _ _ _ _ (by omega)
      rw [this]


/-- Reduction of a do-notation bind applied to a success. -/
theorem bindOkM {α β : Type} (x : α) (f : α → Except (Err × CPUState) β) :
    Bind.bind (Except.ok x) f = f x := rfl

/-- Reduction of a bind applied to a success. -/
theorem bindOk (x : CPUState) (f : CPUState → Res) :
    Except.bind (Except.ok x) f = f x := rfl

/-- FL-pop characterization: reads the byte at SP into FL and increments
SP, provided the new SP stays in range and above the decoded instruction. -/
theorem IRET_popFL_ok (c : CPUState) (hsp : c.SP + 1 ≤ STACK_BASE)
    (hpc : c.program_counter + (c.instruction_register >>> 6) < c.SP + 1) :
    IRET_popFL c = .ok
      { c with
        memory_address_register := c.SP % MAX_MEM
        memory_data_register := c.ram (c.SP % MAX_MEM) % MAX_MEM
        flags := c.ram (c.SP % MAX_MEM) % MAX_MEM
        reg := upd c.reg SP_REG (c.SP + 1) } := by
  have hmm : MAX_MEM = 256 := MAX_MEM_eq
  have hvlt : c.ram (c.SP % MAX_MEM) % MAX_MEM < MAX_MEM := Nat.mod_lt _ (by omega)
  set cA : CPUState :=
    { c with
      memory_address_register := c.SP % MAX_MEM
      memory_data_register := c.ram (c.SP % MAX_MEM) % MAX_MEM
      flags := maskInt ((c.ram (c.SP % MAX_MEM) % MAX_MEM : Nat) : Int) } with hcA
  have hstep : IRET_popFL c = setSP cA ((cA.SP : Int) + 1) := rfl
  have hASP : cA.SP = c.SP := rfl
  have hok : setSP cA ((cA.SP : Int) + 1) =
      .ok { cA with reg := upd cA.reg SP_REG (c.SP + 1) } := by
    refine setSP_ok cA _ (c.SP + 1) ?_ ?_ ?_
    · rw [hASP]
      refine maskInt_add_one c.SP (by rw [STACK_BASE_eq] at hsp; omega)
    · exact hsp
    · left
      exact hpc
  rw [hstep, hok, hcA, maskInt_ofNat _ hvlt]

/-- PC-pop characterization: loads the masked byte at SP into PC (which
must be below SP or the sentinel) and increments SP. -/
theorem IRET_popPC_ok (c : CPUState) (hsp : c.SP + 1 ≤ STACK_BASE)
    (hv : c.ram (c.SP % MAX_MEM) % MAX_MEM < c.SP ∨
          c.ram (c.SP % MAX_MEM) % MAX_MEM = NULL_INTERRUPT)
    (hspan : c.ram (c.SP % MAX_MEM) % MAX_MEM + (c.instruction_register >>> 6) < c.SP + 1 ∨
             c.ram (c.SP % MAX_MEM) % MAX_MEM + (c.instruction_register >>> 6) =
               NULL_INTERRUPT) :
    IRET_popPC c = .ok
      { c with
        memory_address_register := c.SP % MAX_MEM
        memory_data_register := c.ram (c.SP % MAX_MEM) % MAX_MEM
        program_counter := c.ram (c.SP % MAX_MEM) % MAX_MEM
        reg := upd c.reg SP_REG (c.SP + 1) } := by
  have hmm : MAX_MEM = 256 := MAX_MEM_eq
  have hvlt : c.ram (c.SP % MAX_MEM) % MAX_MEM < MAX_MEM := Nat.mod_lt _ (by omega)
  set cA : CPUState :=
    { c with
      memory_address_register := c.SP % MAX_MEM
      memory_data_register := c.ram (c.SP % MAX_MEM) % MAX_MEM } with hcA
  have hstep : IRET_popPC c =
      Except.bind (setPC cA ((c.ram (c.SP % MAX_MEM) % MAX_MEM : Nat) : Int))
        (fun x => setSP x ((x.SP : Int) + 1)) := rfl
  have hok : setPC cA ((c.ram (c.SP % MAX_MEM) % MAX_MEM : Nat) : Int) =
      .ok { cA with program_counter := c.ram (c.SP % MAX_MEM) % MAX_MEM } := by
    refine setPC_ok cA _ _ (maskInt_ofNat _ hvlt) ?_
    exact hv
  set cB : CPUState := { cA with program_counter := c.ram (c.SP % MAX_MEM) % MAX_MEM }
    with hcB
  have hBSP : cB.SP = c.SP := rfl
  have hok2 : setSP cB ((cB.SP : Int) + 1) =
      .ok { cB with reg := upd cB.reg SP_REG (c.SP + 1) } := by
    refine setSP_ok cB _ (c.SP + 1) ?_ hsp ?_
    · rw [hBSP]
      exact maskInt_add_one c.SP (by rw [STACK_BASE_eq] at hsp; omega)
    · exact hspan
  rw [hstep, hok, bindOk, hok2, hcB, hcA]


/-- IRET characterization up to the mask restore: under stack-space and
popped-PC validity conditions the pops all succeed, producing the state
`s9` to which the `_old_IM` lookup is applied. -/
theorem IRET_unfold (s : CPUState)
    (hir0 : s.instruction_register >>> 6 = 0)
    (hsp : s.SP + 9 ≤ STACK_BASE)
    (hpc : s.program_counter < s.SP + 1)
    (hv : s.ram (s.SP + 8) % MAX_MEM < s.SP + 8 ∨
          s.ram (s.SP + 8) % MAX_MEM = NULL_INTERRUPT) :
    ∃ s9,
      IRET s = IRET_restoreIM s9 ∧
      (∀ j, j < 7 → s9.reg j = s.ram (s.SP + (6 - j)) % MAX_MEM) ∧
      s9.SP = s.SP + 9 ∧
      s9.flags = s.ram (s.SP + 7) % MAX_MEM ∧
      s9.program_counter = s.ram (s.SP + 8) % MAX_MEM ∧
      s9.ram = s.ram ∧ s9.old_IM = s.old_IM ∧ s9.output = s.output ∧
      s9.instruction_register = s.instruction_register ∧
      s9.running = s.running ∧ s9.running_dunder = s.running_dunder := by
  have hsb : STACK_BASE = 244 := STACK_BASE_eq
  have hmm : MAX_MEM = 256 := MAX_MEM_eq
  obtain ⟨t, ht, htsp, hvals, hsame, hpct, hirt, hramt, hflt, holdt, houtt,
      hopat, hopbt, hrunt, hrdt⟩ :=
    popRegs_ok (REGISTERS - 1) s (le_refl _)
      (by rw [REGISTERS_eq]; omega)
      (by rw [hir0]; omega)
  have htSP : t.SP = s.SP + 7 := by rw [htsp, REGISTERS_eq]
  have h1 : IRET s = Except.bind (IRET_popFL t) (fun c2 =>
      Except.bind (IRET_popPC c2) IRET_restoreIM) := by
    simp only [IRET, ht, bindOk]
  have hflok := IRET_popFL_ok t (by rw [htSP]; omega)
    (by rw [hpct, hirt, hir0, htSP]; omega)
  simp only [hflok, bindOk] at h1
  -- the state after the FL pop
  set c2 : CPUState :=
    { t with
      memory_address_register := t.SP % MAX_MEM
      memory_data_register := t.ram (t.SP % MAX_MEM) % MAX_MEM
      flags := t.ram (t.SP % MAX_MEM) % MAX_MEM
      reg := upd t.reg SP_REG (t.SP + 1) } with hc2
  have hc2SP : c2.SP = s.SP + 8 := by
    show upd t.reg SP_REG (t.SP + 1) SP_REG = s.SP + 8
    rw [upd_same, htSP]
  have hc2ram : c2.ram = s.ram := hramt
  have hc2ir : c2.instruction_register = s.instruction_register := hirt
  have hc2pc : c2.program_counter = s.program_counter := hpct
  have hc2old : c2.old_IM = s.old_IM := holdt
  have hc2read : c2.ram (c2.SP % MAX_MEM) % MAX_MEM = s.ram (s.SP + 8) % MAX_MEM := by
    rw [hc2ram, hc2SP, Nat.mod_eq_of_lt (show s.SP + 8 < MAX_MEM by omega)]
  have hpcok := IRET_popPC_ok c2 (by rw [hc2SP]; omega)
    (by rw [hc2read, hc2SP]; omega)
    (by rw [hc2read, hc2ir, hir0]
        rcases hv with hv1 | hv2
        · left; omega
        · right; omega)
  simp only [hpcok, bindOk] at h1
  refine ⟨_, h1, ?_, ?_, ?_, ?_, ?_, ?_, ?_, ?_, ?_, ?_⟩
  · intro j hj
    show upd c2.reg SP_REG (c2.SP + 1) j = _
    rw [upd_other _ _ _ _ (by rw [SP_REG_eq]; omega)]
    show upd t.reg SP_REG (t.SP + 1) j = _
    rw [upd_other _ _ _ _ (by rw [SP_REG_eq]; omega)]
    rw [hvals j (by rw [REGISTERS_eq]; omega)]
    congr 2
  · show upd c2.reg SP_REG (c2.SP + 1) SP_REG = _
    rw [upd_same, hc2SP]
  · show c2.flags = _
    show t.ram (t.SP % MAX_MEM) % MAX_MEM = _
    rw [hramt, htSP, Nat.mod_eq_of_lt (show s.SP + 7 < MAX_MEM by omega)]
  · show c2.ram (c2.SP % MAX_MEM) % MAX_MEM = _
    exact hc2read
  · exact hc2ram
  · exact hc2old
  · exact houtt
  · exact hc2ir
  · exact hrunt
  · exact hrdt


/-! Claim C10. -/

/-- C10 counterexample: executing IRET on the freshly reset CPU — a run in
which no interrupt has ever been dispatched — fails with the stack-pointer
range AssertionError raised by the first `SP += 1` (SP is already at
`STACK_BASE`), not with an attribute-lookup error, refuting the claim's
"in any run" universality. -/
theorem C10_counterexample :
    resErr (IRET initState) = some (Err.assertion "stack pointer out of range") := by
  decide

/-- C10 (amended): when the register, FL and PC pops all pass their
invariant checks (nine bytes of stack below `STACK_BASE`, decoded
zero-operand IRET below SP, popped PC valid) and no interrupt has ever been
dispatched (`_old_IM` absent), IRET fails with the attribute-lookup error
rather than acting as a no-op or a clean invariant-violation report; when
the pops themselves violate an invariant (e.g. from reset), that earlier
assertion fires instead. -/
theorem C10_iret_without_dispatch (s : CPUState)
    (hold : s.old_IM = none)
    (hir0 : s.instruction_register >>> 6 = 0)
    (hsp : s.SP + 9 ≤ STACK_BASE)
    (hpc : s.program_counter < s.SP + 1)
    (hv : s.ram (s.SP + 8) % MAX_MEM < s.SP + 8 ∨
          s.ram (s.SP + 8) % MAX_MEM = NULL_INTERRUPT) :
    resErr (IRET s) =
      some (Err.attributeError "CPU object has no attribute _old_IM") := by
  obtain ⟨s9, heq, -, -, -, -, -, hold9, -, -, -, -⟩ := IRET_unfold s hir0 hsp hpc hv
  rw [heq]
  simp only [IRET_restoreIM, hold9, hold, resErr]

/-- C10 witness: a CPU with SP lowered to 100 and IRET decoded satisfies
the hypotheses, and the attribute-lookup failure is observed. -/
theorem C10_witness :
    c10state.old_IM = none ∧
    c10state.instruction_register >>> 6 = 0 ∧
    c10state.SP + 9 ≤ STACK_BASE ∧
    c10state.program_counter < c10state.SP + 1 ∧
    (c10state.ram (c10state.SP + 8) % MAX_MEM < c10state.SP + 8 ∨
     c10state.ram (c10state.SP + 8) % MAX_MEM = NULL_INTERRUPT) ∧
    resErr (IRET c10state) =
      some (Err.attributeError "CPU object has no attribute _old_IM") :=
  ⟨by decide, by decide, by decide, by decide, by decide,
   C10_iret_without_dispatch c10state (by decide) (by decide) (by decide)
     (by decide) (by decide)⟩

/-! Claim C5. -/

/-- C5: with sufficient stack headroom (one byte of room below SP and SP at
least one below `STACK_BASE`), a data register A (not the stack-pointer
register itself) and masked register/memory contents, PUSH A then POP A
leaves the value of A and the stack pointer unchanged, and conversely POP A
then PUSH A restores the memory byte at the popped address and the stack
pointer. -/
theorem C5_push_pop_inverse (s : CPUState) (a : Nat)
    (hopa : s.operand_a = some a) (ha : a < REGISTERS) (ha7 : a ≠ SP_REG)
    (hra : s.reg a < MAX_MEM) (hram : s.ram s.SP < MAX_MEM)
    (hsp1 : 1 ≤ s.SP) (hspb : s.SP + 1 ≤ STACK_BASE)
    (hover : s.program_counter + (s.instruction_register >>> 6) + 1 < s.SP) :
    (stReg (Except.bind (PUSH s) POP) a = some (s.reg a) ∧
     stSP (Except.bind (PUSH s) POP) = some s.SP) ∧
    ((resState (Except.bind (POP s) PUSH)).map (fun f => f.ram s.SP) =
       some (s.ram s.SP) ∧
     stSP (Except.bind (POP s) PUSH) = some s.SP) := by
  have hsb : STACK_BASE = 244 := STACK_BASE_eq
  have hmm : MAX_MEM = 256 := MAX_MEM_eq
  have hsplt : s.SP < MAX_MEM := by omega
  have hmod : s.SP % MAX_MEM = s.SP := Nat.mod_eq_of_lt hsplt
  have hmod1 : (s.SP - 1) % MAX_MEM = s.SP - 1 := Nat.mod_eq_of_lt (by omega)
  have ha7s : SP_REG ≠ a := fun h => ha7 h.symm
  constructor
  · -- PUSH then POP restores the register and SP
    have hok1 : setSP s ((s.SP : Int) - 1) =
        .ok { s with reg := upd s.reg SP_REG (s.SP - 1) } :=
      setSP_ok s _ (s.SP - 1) (maskInt_sub_one s.SP hsp1 hsplt) (by omega)
        (by left; omega)
    set s1 : CPUState := { s with reg := upd s.reg SP_REG (s.SP - 1) } with hs1
    have hs1sp : s1.SP = s.SP - 1 := by
      show upd s.reg SP_REG (s.SP - 1) SP_REG = s.SP - 1
      exact upd_same _ _ _
    have hs1a : s1.reg a = s.reg a := by
      show upd s.reg SP_REG (s.SP - 1) a = s.reg a
      exact upd_other _ _ _ _ ha7
    have hs1opa : s1.operand_a = some a := hopa
    have hPUSH : PUSH s = .ok (ram_write s1 s1.SP (s1.reg a)) := by
      simp only [PUSH, hok1, bindOkM, getOpA, hopa]
    set p : CPUState := ram_write s1 s1.SP (s1.reg a) with hp
    have hpsp : p.SP = s.SP - 1 := hs1sp
    have hpopa : p.operand_a = some a := hopa
    have hpram : p.ram = upd s.ram (s.SP - 1) (s.reg a) := by
      rw [hp]
      show upd s1.ram (s1.SP % MAX_MEM) (s1.reg a % MAX_MEM) = _
      rw [hs1sp, hs1a, hmod1, Nat.mod_eq_of_lt hra]
    have hread : p.ram (p.SP % MAX_MEM) % MAX_MEM = s.reg a := by
      rw [hpram, hpsp, hmod1, upd_same, Nat.mod_eq_of_lt hra]
    set pB : CPUState :=
      { p with
        memory_address_register := p.SP % MAX_MEM
        memory_data_register := p.ram (p.SP % MAX_MEM) % MAX_MEM
        operand_a := some a
        reg := upd p.reg a (p.ram (p.SP % MAX_MEM) % MAX_MEM) } with hpB
    have hPOP : POP p = setSP pB ((pB.SP : Int) + 1) := by
      simp only [POP, getOpA, hpopa, bindOkM, ram_read, setMAR, setMDR]
    have hpBsp : pB.SP = s.SP - 1 := by
      show upd p.reg a _ SP_REG = _
      rw [upd_other _ _ _ _ ha7s]
      exact hpsp
    have hpBpc : pB.program_counter = s.program_counter := rfl
    have hpBir : pB.instruction_register = s.instruction_register := rfl
    have hok2 : setSP pB ((pB.SP : Int) + 1) =
        .ok { pB with reg := upd pB.reg SP_REG s.SP } := by
      refine setSP_ok pB _ s.SP ?_ (by omega) ?_
      · rw [hpBsp, maskInt_add_one (s.SP - 1) (by omega)]
        omega
      · left
        rw [hpBpc, hpBir]
        omega
    have hall : Except.bind (PUSH s) POP =
        .ok { pB with reg := upd pB.reg SP_REG s.SP } := by
      rw [hPUSH, bindOk, hPOP, hok2]
    rw [hall]
    constructor
    · show some (upd pB.reg SP_REG s.SP a) = some (s.reg a)
      rw [upd_other _ _ _ _ ha7]
      show some (upd p.reg a (p.ram (p.SP % MAX_MEM) % MAX_MEM) a) = _
      rw [upd_same, hread]
    · show some (upd pB.reg SP_REG s.SP SP_REG) = some s.SP
      rw [upd_same]
  · -- POP then PUSH restores memory at the popped address and SP
    set q1 : CPUState :=
      { s with
        memory_address_register := s.SP % MAX_MEM
        memory_data_register := s.ram (s.SP % MAX_MEM) % MAX_MEM
        operand_a := some a
        reg := upd s.reg a (s.ram (s.SP % MAX_MEM) % MAX_MEM) } with hq1
    have hPOPs : POP s = setSP q1 ((q1.SP : Int) + 1) := by
      simp only [POP, getOpA, hopa, bindOkM, ram_read, setMAR, setMDR]
    have hq1sp : q1.SP = s.SP := by
      show upd s.reg a _ SP_REG = _
      rw [upd_other _ _ _ _ ha7s]
      rfl
    have hq1pc : q1.program_counter = s.program_counter := rfl
    have hq1ir : q1.instruction_register = s.instruction_register := rfl
    have hok3 : setSP q1 ((q1.SP : Int) + 1) =
        .ok { q1 with reg := upd q1.reg SP_REG (s.SP + 1) } := by
      refine setSP_ok q1 _ (s.SP + 1) ?_ hspb ?_
      · rw [hq1sp]
        exact maskInt_add_one s.SP (by omega)
      · left
        rw [hq1pc, hq1ir]
        omega
    set q2 : CPUState := { q1 with reg := upd q1.reg SP_REG (s.SP + 1) } with hq2
    have hq2sp : q2.SP = s.SP + 1 := by
      show upd q1.reg SP_REG (s.SP + 1) SP_REG = s.SP + 1
      exact upd_same _ _ _
    have hq2pc : q2.program_counter = s.program_counter := rfl
    have hq2ir : q2.instruction_register = s.instruction_register := rfl
    have hok4 : setSP q2 ((q2.SP : Int) - 1) =
        .ok { q2 with reg := upd q2.reg SP_REG s.SP } := by
      refine setSP_ok q2 _ s.SP ?_ (by omega) ?_
      · rw [hq2sp, maskInt_sub_one (s.SP + 1) (by omega) (by omega)]
        omega
      · left
        rw [hq2pc, hq2ir]
        omega
    set q3 : CPUState := { q2 with reg := upd q2.reg SP_REG s.SP } with hq3
    have hq3sp : q3.SP = s.SP := by
      show upd q2.reg SP_REG s.SP SP_REG = s.SP
      exact upd_same _ _ _
    have hq3opa : q3.operand_a = some a := rfl
    have hPUSH2 : PUSH q2 = .ok (ram_write q3 q3.SP (q3.reg a)) := by
      simp only [PUSH, hok4, bindOkM, getOpA, hopa]
    have hq3a : q3.reg a = s.ram s.SP := by
      show upd q2.reg SP_REG s.SP a = _
      rw [upd_other _ _ _ _ ha7]
      show upd q1.reg SP_REG (s.SP + 1) a = _
      rw [upd_other _ _ _ _ ha7]
      show upd s.reg a (s.ram (s.SP % MAX_MEM) % MAX_MEM) a = _
      rw [upd_same, hmod, Nat.mod_eq_of_lt hram]
    have hall2 : Except.bind (POP s) PUSH = .ok (ram_write q3 q3.SP (q3.reg a)) := by
      rw [hPOPs, hok3, bindOk, hPUSH2]
    rw [hall2]
    constructor
    · show some ((ram_write q3 q3.SP (q3.reg a)).ram s.SP) = some (s.ram s.SP)
      show some (upd q3.ram (q3.SP % MAX_MEM) (q3.reg a % MAX_MEM) s.SP) = _
      have hq3ram : q3.ram = s.ram := rfl
      rw [hq3ram, hq3sp, hmod, hq3a, Nat.mod_eq_of_lt hram, upd_same]
    · show some q3.SP = some s.SP
      rw [hq3sp]


/-- C5 witness: R2 = 77 with SP at 200 and `ram[200] = 123`. -/
theorem C5_witness :
    c5state.operand_a = some 2 ∧ (2 : Nat) < REGISTERS ∧ (2 : Nat) ≠ SP_REG ∧
    c5state.reg 2 < MAX_MEM ∧ c5state.ram c5state.SP < MAX_MEM ∧
    1 ≤ c5state.SP ∧ c5state.SP + 1 ≤ STACK_BASE ∧
    c5state.program_counter + (c5state.instruction_register >>> 6) + 1 <
      c5state.SP ∧
    ((stReg (Except.bind (PUSH c5state) POP) 2 = some (c5state.reg 2) ∧
      stSP (Except.bind (PUSH c5state) POP) = some c5state.SP) ∧
     ((resState (Except.bind (POP c5state) PUSH)).map
         (fun f => f.ram c5state.SP) = some (c5state.ram c5state.SP) ∧
      stSP (Except.bind (POP c5state) PUSH) = some c5state.SP)) :=
  ⟨by decide, by decide, by decide, by decide, by decide, by decide, by decide,
   by decide,
   C5_push_pop_inverse c5state 2 (by decide) (by decide) (by decide) (by decide)
     (by decide) (by decide) (by decide) (by decide)⟩

/-! Claim C8. -/

/-- Masking a nonnegative int agrees with the Nat remainder. -/
theorem maskInt_nat (n : Nat) : maskInt (n : Int) = n % MAX_MEM := by
  simp only [maskInt, MAX_MEM_eq]
  omega

/-- C8: every register-writing instruction stores the mathematically
expected result reduced modulo `2^BITS`, so the stored value lies in
`[0, MAX_MEM)`: all binary and unary ALU operations (divide/modulo under a
nonzero divisor), LDI (whose operand the decoder has already masked), LD,
ADDI, POP, and the register, mask and flag restores of IRET. -/
theorem C8_register_writes_masked (s : CPUState) (a b c m : Nat)
    (ha : a < REGISTERS) (hb : b < REGISTERS) (ha7 : a ≠ SP_REG)
    (hopa : s.operand_a = some a) (hopb : s.operand_b = some c) (hc : c < MAX_MEM)
    (hir0 : s.instruction_register >>> 6 = 0)
    (hsp9 : s.SP + 9 ≤ STACK_BASE)
    (hspan : s.program_counter < s.SP + 1)
    (hv : s.ram (s.SP + 8) % MAX_MEM < s.SP + 8)
    (hold : s.old_IM = some m) :
    stReg (alu s .ADD (some a) (some b)) a = some ((s.reg a + s.reg b) % MAX_MEM) ∧
    stReg (alu s .SUB (some a) (some b)) a =
      some (maskInt ((s.reg a : Int) - (s.reg b : Int))) ∧
    stReg (alu s .MUL (some a) (some b)) a = some ((s.reg a * s.reg b) % MAX_MEM) ∧
    (s.reg b ≠ 0 →
      stReg (alu s .DIV (some a) (some b)) a = some ((s.reg a / s.reg b) % MAX_MEM)) ∧
    (s.reg b ≠ 0 →
      stReg (alu s .MOD (some a) (some b)) a = some ((s.reg a % s.reg b) % MAX_MEM)) ∧
    stReg (alu s .AND (some a) (some b)) a = some ((s.reg a &&& s.reg b) % MAX_MEM) ∧
    stReg (alu s .OR (some a) (some b)) a = some ((s.reg a ||| s.reg b) % MAX_MEM) ∧
    stReg (alu s .XOR (some a) (some b)) a = some ((s.reg a ^^^ s.reg b) % MAX_MEM) ∧
    stReg (alu s .SHL (some a) (some b)) a = some ((s.reg a <<< s.reg b) % MAX_MEM) ∧
    stReg (alu s .SHR (some a) (some b)) a = some ((s.reg a >>> s.reg b) % MAX_MEM) ∧
    stReg (alu s .INC (some a) none) a = some ((s.reg a + 1) % MAX_MEM) ∧
    stReg (alu s .DEC (some a) none) a = some (maskInt ((s.reg a : Int) - 1)) ∧
    stReg (alu s .NOT (some a) none) a = some (maskInt (-(s.reg a : Int) - 1)) ∧
    (stReg (alu s .ADD (some a) (some b)) a).getD 0 < MAX_MEM ∧
    (stReg (alu s .SUB (some a) (some b)) a).getD 0 < MAX_MEM ∧
    (stReg (alu s .SHL (some a) (some b)) a).getD 0 < MAX_MEM ∧
    (stReg (alu s .NOT (some a) none) a).getD 0 < MAX_MEM ∧
    stReg (LDI s) a = some (c % MAX_MEM) ∧
    (c < REGISTERS → s.reg c < MAX_MEM →
      stReg (LD s) a = some (s.ram (s.reg c) % MAX_MEM)) ∧
    stReg (ADDI s) a = some ((s.reg a + c) % MAX_MEM) ∧
    stReg (POP s) a = some (s.ram s.SP % MAX_MEM) ∧
    stReg (IRET s) 0 = some (s.ram (s.SP + 6) % MAX_MEM) ∧
    stReg (IRET s) IM_REG = some (m % MAX_MEM) ∧
    stFL (IRET s) = some (s.ram (s.SP + 7) % MAX_MEM) ∧
    (stReg (IRET s) IS_REG).getD 0 < MAX_MEM := by
  have hsb : STACK_BASE = 244 := STACK_BASE_eq
  have hmm : MAX_MEM = 256 := MAX_MEM_eq
  have hsplt : s.SP < MAX_MEM := by omega
  have hmodsp : s.SP % MAX_MEM = s.SP := Nat.mod_eq_of_lt hsplt
  have ha7s : SP_REG ≠ a := fun h => ha7 h.symm
  -- binary ALU write characterization
  have key : ∀ (op : AluCmd) (r : Int), op ≠ .CMP →
      ALU_OP op (s.reg a) (some (s.reg b)) = .ok r →
      stReg (alu s op (some a) (some b)) a = some (maskInt r) := by
    intro op r hop hres
    simp only [alu, if_pos ha, if_pos hb, hres]
    rw [if_neg hop]
    show some (upd s.reg a (maskInt r) a) = _
    rw [upd_same]
  have keyU : ∀ (op : AluCmd) (r : Int), op ≠ .CMP →
      ALU_OP op (s.reg a) none = .ok r →
      stReg (alu s op (some a) none) a = some (maskInt r) := by
    intro op r hop hres
    simp only [alu, if_pos ha, hres]
    rw [if_neg hop]
    show some (upd s.reg a (maskInt r) a) = _
    rw [upd_same]
  -- the IRET chain
  obtain ⟨s9, heq, hvals9, hsp9r, hfl9, hpc9, hram9, hold9, hout9, hir9,
      hrun9, hrd9⟩ := IRET_unfold s hir0 hsp9 hspan (Or.inl hv)
  have hIR : IRET s = .ok (setIM s9 m) := by
    rw [heq]
    simp only [IRET_restoreIM, hold9, hold]
  -- the POP chain
  set q1 : CPUState :=
    { s with
      memory_address_register := s.SP % MAX_MEM
      memory_data_register := s.ram (s.SP % MAX_MEM) % MAX_MEM
      operand_a := some a
      reg := upd s.reg a (s.ram (s.SP % MAX_MEM) % MAX_MEM) } with hq1
  have hPOPs : POP s = setSP q1 ((q1.SP : Int) + 1) := by
    simp only [POP, getOpA, hopa, bindOkM, ram_read, setMAR, setMDR]
  have hq1sp : q1.SP = s.SP := by
    show upd s.reg a _ SP_REG = _
    rw [upd_other _ _ _ _ ha7s]
    rfl
  have hq1pc : q1.program_counter = s.program_counter := rfl
  have hq1ir : q1.instruction_register = s.instruction_register := rfl
  have hok3 : setSP q1 ((q1.SP : Int) + 1) =
      .ok { q1 with reg := upd q1.reg SP_REG (s.SP + 1) } := by
    refine setSP_ok q1 _ (s.SP + 1) ?_ (by omega) ?_
    · rw [hq1sp]
      exact maskInt_add_one s.SP (by omega)
    · left
      rw [hq1pc, hq1ir, hir0]
      omega
  refine ⟨?_, ?_, ?_, ?_, ?_, ?_, ?_, ?_, ?_, ?_, ?_, ?_, ?_, ?_, ?_, ?_, ?_,
      ?_, ?_, ?_, ?_, ?_, ?_, ?_, ?_⟩
  · rw [key .ADD _ (by decide) rfl, ← Nat.cast_add, maskInt_nat]
  · rw [key .SUB _ (by decide) rfl]
  · rw [key .MUL _ (by decide) rfl, ← Nat.cast_mul, maskInt_nat]
  · intro hbz
    have hres : ALU_OP .DIV (s.reg a) (some (s.reg b)) =
        .ok ((s.reg a / s.reg b : Nat) : Int) := by
      simp only [ALU_OP, if_neg hbz]
    rw [key .DIV _ (by decide) hres, maskInt_nat]
  · intro hbz
    have hres : ALU_OP .MOD (s.reg a) (some (s.reg b)) =
        .ok ((s.reg a % s.reg b : Nat) : Int) := by
      simp only [ALU_OP, if_neg hbz]
    rw [key .MOD _ (by decide) hres, maskInt_nat]
  · rw [key .AND _ (by decide) rfl, maskInt_nat]
  · rw [key .OR _ (by decide) rfl, maskInt_nat]
  · rw [key .XOR _ (by decide) rfl, maskInt_nat]
  · rw [key .SHL _ (by decide) rfl, maskInt_nat]
  · rw [key .SHR _ (by decide) rfl, maskInt_nat]
  · rw [keyU .INC _ (by decide) rfl]
    have : ((s.reg a : Int) + 1) = ((s.reg a + 1 : Nat) : Int) := by push_cast; ring
    rw [this, maskInt_nat]
  · rw [keyU .DEC _ (by decide) rfl]
  · rw [keyU .NOT _ (by decide) rfl]
  · rw [key .ADD _ (by decide) rfl, ← Nat.cast_add, maskInt_nat]
    show (s.reg a + s.reg b) % MAX_MEM < MAX_MEM
    exact Nat.mod_lt _ (by omega)
  · rw [key .SUB _ (by decide) rfl]
    show maskInt _ < MAX_MEM
    simp only [maskInt, MAX_MEM_eq]
    omega
  · rw [key .SHL _ (by decide) rfl, maskInt_nat]
    show (s.reg a <<< s.reg b) % MAX_MEM < MAX_MEM
    exact Nat.mod_lt _ (by omega)
  · rw [keyU .NOT _ (by decide) rfl]
    show maskInt _ < MAX_MEM
    simp only [maskInt, MAX_MEM_eq]
    omega
  · simp only [LDI, getOpA, getOpB, hopa, hopb, bindOkM]
    show some (upd s.reg a c a) = _
    rw [upd_same, Nat.mod_eq_of_lt hc]
  · intro hcR hrc
    simp only [LD, getOpB, hopb, bindOkM]
    rw [if_pos hcR]
    simp only [getOpA, hopa, bindOkM, ram_read, setMAR, setMDR]
    show some (upd s.reg a (s.ram (s.reg c % MAX_MEM) % MAX_MEM) a) = _
    rw [upd_same, Nat.mod_eq_of_lt hrc]
  · simp only [ADDI, getOpA, getOpB, hopa, hopb, bindOkM]
    show some (upd s.reg a ((s.reg a + c) % ((1 <<< BITS) - 1 + 1)) a) = _
    rw [upd_same]
    rfl
  · rw [hPOPs, hok3]
    show some (upd q1.reg SP_REG (s.SP + 1) a) = _
    rw [upd_other _ _ _ _ ha7]
    show some (upd s.reg a (s.ram (s.SP % MAX_MEM) % MAX_MEM) a) = _
    rw [upd_same, hmodsp]
  · rw [hIR]
    show some (upd s9.reg IM_REG (m % MAX_MEM) 0) = _
    rw [upd_other _ _ _ _ (by rw [IM_REG_eq]; omega), hvals9 0 (by omega)]
  · rw [hIR]
    show some (upd s9.reg IM_REG (m % MAX_MEM) IM_REG) = _
    rw [upd_same]
  · rw [hIR]
    show some (setIM s9 m).flags = _
    show some s9.flags = _
    rw [hfl9]
  · rw [hIR]
    show (some (upd s9.reg IM_REG (m % MAX_MEM) IS_REG)).getD 0 < MAX_MEM
    rw [upd_other _ _ _ _ (by rw [IS_REG_eq, IM_REG_eq]; omega),
        hvals9 IS_REG (by rw [IS_REG_eq]; omega)]
    exact Nat.mod_lt _ (by omega)


/-- C8 witness: the CPU `c8state` (R0 = 3, R1 = 10, SP = 100, operands 0
and 1 decoded, saved mask 9) satisfies every hypothesis, and all the masked
store equations follow by applying the theorem. -/
theorem C8_witness :
    (0 : Nat) < REGISTERS ∧ (1 : Nat) < REGISTERS ∧ (0 : Nat) ≠ SP_REG ∧
    c8state.operand_a = some 0 ∧ c8state.operand_b = some 1 ∧
    (1 : Nat) < MAX_MEM ∧
    c8state.instruction_register >>> 6 = 0 ∧
    c8state.SP + 9 ≤ STACK_BASE ∧
    c8state.program_counter < c8state.SP + 1 ∧
    c8state.ram (c8state.SP + 8) % MAX_MEM < c8state.SP + 8 ∧
    c8state.old_IM = some 9 ∧
    (
    stReg (alu c8state .ADD (some 0) (some 1)) 0 = some ((c8state.reg 0 + c8state.reg 1) % MAX_MEM) ∧
    stReg (alu c8state .SUB (some 0) (some 1)) 0 =
      some (maskInt ((c8state.reg 0 : Int) - (c8state.reg 1 : Int))) ∧
    stReg (alu c8state .MUL (some 0) (some 1)) 0 = some ((c8state.reg 0 * c8state.reg 1) % MAX_MEM) ∧
    (c8state.reg 1 ≠ 0 →
      stReg (alu c8state .DIV (some 0) (some 1)) 0 = some ((c8state.reg 0 / c8state.reg 1) % MAX_MEM)) ∧
    (c8state.reg 1 ≠ 0 →
      stReg (alu c8state .MOD (some 0) (some 1)) 0 = some ((c8state.reg 0 % c8state.reg 1) % MAX_MEM)) ∧
    stReg (alu c8state .AND (some 0) (some 1)) 0 = some ((c8state.reg 0 &&& c8state.reg 1) % MAX_MEM) ∧
    stReg (alu c8state .OR (some 0) (some 1)) 0 = some ((c8state.reg 0 ||| c8state.reg 1) % MAX_MEM) ∧
    stReg (alu c8state .XOR (some 0) (some 1)) 0 = some ((c8state.reg 0 ^^^ c8state.reg 1) % MAX_MEM) ∧
    stReg (alu c8state .SHL (some 0) (some 1)) 0 = some ((c8state.reg 0 <<< c8state.reg 1) % MAX_MEM) ∧
    stReg (alu c8state .SHR (some 0) (some 1)) 0 = some ((c8state.reg 0 >>> c8state.reg 1) % MAX_MEM) ∧
    stReg (alu c8state .INC (some 0) none) 0 = some ((c8state.reg 0 + 1) % MAX_MEM) ∧
    stReg (alu c8state .DEC (some 0) none) 0 = some (maskInt ((c8state.reg 0 : Int) - 1)) ∧
    stReg (alu c8state .NOT (some 0) none) 0 = some (maskInt (-(c8state.reg 0 : Int) - 1)) ∧
    (stReg (alu c8state .ADD (some 0) (some 1)) 0).getD 0 < MAX_MEM ∧
    (stReg (alu c8state .SUB (some 0) (some 1)) 0).getD 0 < MAX_MEM ∧
    (stReg (alu c8state .SHL (some 0) (some 1)) 0).getD 0 < MAX_MEM ∧
    (stReg (alu c8state .NOT (some 0) none) 0).getD 0 < MAX_MEM ∧
    stReg (LDI c8state) 0 = some (1 % MAX_MEM) ∧
    (1 < REGISTERS → c8state.reg 1 < MAX_MEM →
      stReg (LD c8state) 0 = some (c8state.ram (c8state.reg 1) % MAX_MEM)) ∧
    stReg (ADDI c8state) 0 = some ((c8state.reg 0 + 1) % MAX_MEM) ∧
    stReg (POP c8state) 0 = some (c8state.ram c8state.SP % MAX_MEM) ∧
    stReg (IRET c8state) 0 = some (c8state.ram (c8state.SP + 6) % MAX_MEM) ∧
    stReg (IRET c8state) IM_REG = some (9 % MAX_MEM) ∧
    stFL (IRET c8state) = some (c8state.ram (c8state.SP + 7) % MAX_MEM) ∧
    (stReg (IRET c8state) IS_REG).getD 0 < MAX_MEM) :=
  ⟨by decide, by decide, by decide, by decide, by decide, by decide,
   by decide, by decide, by decide, by decide, by decide,
   C8_register_writes_masked c8state 0 1 1 9 (by decide) (by decide)
     (by decide) (by decide) (by decide) (by decide) (by decide) (by decide)
     (by decide) (by decide) (by decide)⟩


end LS8
